import Mathlib

/-!
# AiMesh core — shallow embedding and verification

A shallow embedding of the AiMesh message-router core (protocol validation,
priority scheduling, cost-aware routing, rate limiting, deduplication and
tenant quotas), translated from the Rust sources, together with theorems
settling the specification claims.

Modelling conventions:
* `u32`/`u64`/`usize` counters are `Nat`; unguarded increments that can wrap
  in release builds carry an explicit `% 2^w`.
* `i32`/`i64` values are `Int`; the `i64::MAX` sentinel is the literal
  9223372036854775807.
* `f64`/`f32` arithmetic is idealised over `ℚ`.
* Concurrent maps (`DashMap`) are association lists; the list order stands
  for the (unspecified) map iteration order.
* Wall-clock reads (`SystemTime::now`, `Instant::now`) become explicit time
  parameters.  The rate limiter is modelled at a single instant (zero elapsed
  time between calls): `refill` with zero elapsed milliseconds is a no-op and
  the sliding window retains every recorded entry, exactly as in the source.
-/

namespace AiMesh

/-- `i64::MAX`, used by the code as the "no deadline" sentinel. -/
def i64MAX : Int := 9223372036854775807

/-- Association-list insert: replaces any existing binding of `k`
(the observable behaviour of `DashMap::insert`). -/
def insertKV {V : Type} (k : String) (v : V) (l : List (String × V)) :
    List (String × V) :=
  (k, v) :: l.filter (fun p => p.1 != k)

/-- Association-list in-place update of the binding of `k`, if present
(the observable behaviour of `DashMap::get_mut`). -/
def updateKV {V : Type} (k : String) (f : V → V) :
    List (String × V) → List (String × V)
  | [] => []
  | (k', v) :: rest =>
      if k' = k then (k', f v) :: rest else (k', v) :: updateKV k f rest

/-- Decidable equality for `Except` results, so concrete runs can be
checked by `decide`. -/
instance {ε α : Type} [DecidableEq ε] [DecidableEq α] :
    DecidableEq (Except ε α) := fun x y =>
  match x, y with
  | .ok a, .ok b =>
      if h : a = b then .isTrue (by rw [h]) else .isFalse (by simp [h])
  | .error a, .error b =>
      if h : a = b then .isTrue (by rw [h]) else .isFalse (by simp [h])
  | .ok _, .error _ => .isFalse (by simp)
  | .error _, .ok _ => .isFalse (by simp)

/-! ## Protocol module (`src/protocol/mod.rs`) -/

/-- `ProtocolError` (src/protocol/mod.rs). -/
inductive ProtocolError where
  | SerializationError (msg : String)
  | DeserializationFailed (msg : String)
  | ValidationFailed (msg : String)
  | MessageTooLarge (size : Nat) (max : Nat)
  | InvalidAgentId (msg : String)
  | BudgetExceeded (required : ℚ) (available : ℚ)
  | DeadlineExpired (deadline_ms : Int) (current_ms : Int)
deriving DecidableEq

/-- `MAX_PAYLOAD_SIZE` (1 MiB). -/
def MAX_PAYLOAD_SIZE : Nat := 1024 * 1024

/-- `AiMessage` (protobuf message, fields as used by the core). -/
structure AiMessage where
  agent_id : String
  message_id : String
  payload : List Nat
  estimated_cost_tokens : ℚ
  budget_tokens : ℚ
  deadline_ms : Int
  task_graph_id : String
  dependencies : List String
  priority : Int
  dedup_context : String
  trace_id : String
  metadata : List (String × String)
  timestamp : Int
deriving DecidableEq

/-- One character of the `^[a-z0-9_-]+$` agent-id check
(`c.is_ascii_lowercase() || c.is_ascii_digit() || c == '_' || c == '-'`). -/
def agentIdCharOk (c : Char) : Bool :=
  (decide ('a' ≤ c) && decide (c ≤ 'z')) ||
  (decide ('0' ≤ c) && decide (c ≤ '9')) ||
  c == '_' || c == '-'

/-- `AiMessage::validate`, with the wall clock passed in as `now_ms`. -/
def AiMessage.validate (m : AiMessage) (now_ms : Int) :
    Except ProtocolError Unit := do
  if m.agent_id = "" then
    throw (.InvalidAgentId "Agent ID cannot be empty")
  if !(m.agent_id.toList.all agentIdCharOk) then
    throw (.InvalidAgentId
      ("Agent ID '" ++ m.agent_id ++ "' must match pattern ^[a-z0-9_-]+$"))
  if m.payload.length > MAX_PAYLOAD_SIZE then
    throw (.MessageTooLarge m.payload.length MAX_PAYLOAD_SIZE)
  if m.budget_tokens ≤ 0 then
    throw (.ValidationFailed "budget_tokens must be positive")
  if m.deadline_ms > 0 ∧ m.deadline_ms < now_ms then
    throw (.DeadlineExpired m.deadline_ms now_ms)
  if m.priority < 0 ∨ m.priority > 100 then
    throw (.ValidationFailed ("Priority must be 0-100, got " ++ toString m.priority))
  return ()

/-- `AiMessage::is_expired`: `deadline_ms == 0` means "no deadline set". -/
def AiMessage.is_expired (m : AiMessage) (now_ms : Int) : Bool :=
  if m.deadline_ms = 0 then false
  else decide (m.deadline_ms < now_ms)

/-! ## Priority module (`src/priority/mod.rs`) -/

/-- `PriorityLevel`. -/
inductive PriorityLevel where
  | Low
  | Normal
  | High
  | Critical
deriving DecidableEq

/-- The enum discriminants (`Low = 0, …, Critical = 3`). -/
def PriorityLevel.rank : PriorityLevel → Int
  | .Low => 0
  | .Normal => 1
  | .High => 2
  | .Critical => 3

/-- `impl From<i32> for PriorityLevel`: the match on `0..=25`, `26..=50`,
`51..=75`, and the catch-all `_ => Critical`. -/
def PriorityLevel.fromI32 (priority : Int) : PriorityLevel :=
  if 0 ≤ priority ∧ priority ≤ 25 then .Low
  else if 26 ≤ priority ∧ priority ≤ 50 then .Normal
  else if 51 ≤ priority ∧ priority ≤ 75 then .High
  else .Critical

/-- `PrioritizedMessage`. -/
structure PrioritizedMessage where
  message : AiMessage
  priority_level : PriorityLevel
  enqueued_at : Int
  deadline_ms : Int
deriving DecidableEq

/-- `PrioritizedMessage::new`, with the enqueue clock passed in. -/
def PrioritizedMessage.new (message : AiMessage) (now_ns : Int) :
    PrioritizedMessage :=
  { message := message
    priority_level := PriorityLevel.fromI32 message.priority
    enqueued_at := now_ns
    deadline_ms := message.deadline_ms }

/-- `PrioritizedMessage::time_until_deadline`. -/
def PrioritizedMessage.time_until_deadline (pm : PrioritizedMessage)
    (now_ms : Int) : Int :=
  pm.deadline_ms - now_ms

/-- `PrioritizedMessage::is_expired`: only `i64::MAX` is special-cased. -/
def PrioritizedMessage.is_expired (pm : PrioritizedMessage) (now_ms : Int) :
    Bool :=
  if pm.deadline_ms = i64MAX then false
  else decide (pm.time_until_deadline now_ms < 0)

/-- `PrioritizedMessage::effective_priority`. -/
def PrioritizedMessage.effective_priority (pm : PrioritizedMessage)
    (now_ms : Int) : Int :=
  let base_priority := pm.priority_level.rank * 1000
  let deadline_boost :=
    if pm.deadline_ms = i64MAX then 0
    else
      let time_left := pm.time_until_deadline now_ms
      if time_left < 1000 then 500
      else if time_left < 5000 then 200
      else if time_left < 10000 then 100
      else 0
  base_priority + deadline_boost

/-- `PriorityQueueConfig`. -/
structure PriorityQueueConfig where
  max_size : Nat
  deadline_aware : Bool
  drop_expired : Bool
deriving DecidableEq

/-- `PriorityQueueConfig::default`. -/
def PriorityQueueConfig.default : PriorityQueueConfig :=
  { max_size := 100000, deadline_aware := true, drop_expired := true }

/-- `QueueError`. -/
inductive QueueError where
  | Full
  | Closed
deriving DecidableEq

/-- `PriorityQueue::push` on the heap contents: refuse with `Full` at
`max_size`, otherwise wrap and insert.  No field of the message is
validated here. -/
def queuePush (cfg : PriorityQueueConfig) (heap : List PrioritizedMessage)
    (message : AiMessage) (now_ns : Int) :
    Except QueueError (List PrioritizedMessage) :=
  if heap.length ≥ cfg.max_size then .error .Full
  else .ok (PrioritizedMessage.new message now_ns :: heap)

/-- Extract a maximal element of the heap contents by
`effective_priority` evaluated now (the comparison `BinaryHeap` uses);
returns it with the remaining elements. -/
def selectMax (now_ms : Int) :
    List PrioritizedMessage →
      Option (PrioritizedMessage × List PrioritizedMessage)
  | [] => none
  | x :: xs =>
      match selectMax now_ms xs with
      | none => some (x, [])
      | some (top, rest) =>
          if top.effective_priority now_ms > x.effective_priority now_ms then
            some (top, x :: rest)
          else
            some (x, xs)

/-- The peek-and-discard loop of `PriorityQueue::pop`, with fuel. -/
def popAux (drop_expired : Bool) (now_ms : Int) :
    Nat → List PrioritizedMessage → Option PrioritizedMessage
  | 0, _ => none
  | n + 1, heap =>
      match selectMax now_ms heap with
      | none => none
      | some (top, rest) =>
          if drop_expired && top.is_expired now_ms then
            popAux drop_expired now_ms n rest
          else
            some top

/-- `PriorityQueue::pop` on the heap contents: with `drop_expired`, expired
messages at the top are discarded; the top survivor is returned. -/
def queuePop (cfg : PriorityQueueConfig) (heap : List PrioritizedMessage)
    (now_ms : Int) : Option PrioritizedMessage :=
  popAux cfg.drop_expired now_ms heap.length heap

/-! ## Routing module (`src/routing/mod.rs`) -/

/-- `HealthStatus` enum discriminants, as stored in the `i32` wire field. -/
def healthStatusUnknown : Int := 0

/-- `HealthStatus::Healthy as i32`. -/
def healthStatusHealthy : Int := 1

/-- `HealthStatus::Degraded as i32`. -/
def healthStatusDegraded : Int := 2

/-- `HealthStatus::Unhealthy as i32`. -/
def healthStatusUnhealthy : Int := 3

/-- `EndpointMetrics` wire message. -/
structure EndpointMetrics where
  endpoint_id : String
  capacity : Nat
  current_load : Nat
  cost_per_1k_tokens : ℚ
  latency_p99_ms : ℚ
  error_rate : ℚ
  last_health_check : Int
  health_status : Int
deriving DecidableEq

/-- `RoutingScore`. -/
structure RoutingScore where
  cost_score : ℚ
  load_score : ℚ
  latency_score : ℚ
  total_score : ℚ
deriving DecidableEq

/-- `RoutingDecision`.  The `routing_reason` field of the source is a
`format!` string rendering the score terms in decimal; decimal float
rendering is not modelled, so the field is omitted here (no claim
mentions it). -/
structure RoutingDecision where
  message_id : String
  target_endpoint : String
  estimated_latency_ms : Int
  estimated_cost : ℚ
  fallback_endpoints : List String
  score_breakdown : Option RoutingScore
deriving DecidableEq

/-- `BudgetInfo`. -/
structure BudgetInfo where
  agent_id : String
  initial_tokens : ℚ
  remaining_tokens : ℚ
  consumption_rate : ℚ
  reset_at : Int
deriving DecidableEq

/-- `RoutingError`. -/
inductive RoutingError where
  | NoHealthyEndpoints
  | BudgetExceeded (agent_id : String) (required : ℚ) (available : ℚ)
  | EndpointNotFound (id : String)
  | RateLimitExceeded (agent : String)
deriving DecidableEq

/-- `ScoringWeights`. -/
structure ScoringWeights where
  cost_weight : ℚ
  load_weight : ℚ
  latency_weight : ℚ
deriving DecidableEq

/-- `ScoringWeights::default` (0.4 / 0.3 / 0.3). -/
def ScoringWeights.default : ScoringWeights :=
  { cost_weight := 4/10, load_weight := 3/10, latency_weight := 3/10 }

/-- `RouterConfig`. -/
structure RouterConfig where
  weights : ScoringWeights
  health_check_interval_secs : Nat
  max_retries : Nat
  unhealthy_threshold : Nat
deriving DecidableEq

/-- `RouterConfig::default`. -/
def RouterConfig.default : RouterConfig :=
  { weights := ScoringWeights.default
    health_check_interval_secs := 5
    max_retries := 3
    unhealthy_threshold := 3 }

/-- `Endpoint`: metrics plus failure tracking. -/
structure Endpoint where
  metrics : EndpointMetrics
  consecutive_failures : Nat
  last_success : Int
deriving DecidableEq

/-- `Endpoint::new`, with the clock passed in. -/
def Endpoint.new (metrics : EndpointMetrics) (now_ns : Int) : Endpoint :=
  { metrics := metrics, consecutive_failures := 0, last_success := now_ns }

/-- `Endpoint::is_healthy`. -/
def Endpoint.is_healthy (e : Endpoint) : Bool :=
  e.metrics.health_status = healthStatusHealthy

/-- `Endpoint::load_percentage`: a zero-capacity endpoint is treated as
fully loaded (`1.0`). -/
def Endpoint.load_percentage (e : Endpoint) : ℚ :=
  if e.metrics.capacity = 0 then 1
  else (e.metrics.current_load : ℚ) / (e.metrics.capacity : ℚ)

/-- Saturating-truncating `as i32` cast from a (rational-modelled) float. -/
def f64toI32 (q : ℚ) : Int :=
  max (-2147483648) (min 2147483647 (q.num.tdiv (q.den : Int)))

/-- `f64::MAX`, as an exact rational. -/
def f64MAXq : ℚ := 2 ^ 1024 - 2 ^ 971

/-- `CostAwareRouter` state: endpoint map, budget map and decision
history, each association list standing for the corresponding
concurrent map in iteration order. -/
structure RouterState where
  endpoints : List (String × Endpoint)
  budgets : List (String × BudgetInfo)
  routing_history : List RoutingDecision
deriving DecidableEq

/-- `CostAwareRouter::new`. -/
def RouterState.new : RouterState :=
  { endpoints := [], budgets := [], routing_history := [] }

/-- `CostAwareRouter::score_endpoint` (lower is better). -/
def score_endpoint (cfg : RouterConfig) (endpoint : Endpoint) : ℚ :=
  let cost_score := endpoint.metrics.cost_per_1k_tokens * cfg.weights.cost_weight
  let load_score := endpoint.load_percentage * 100 * cfg.weights.load_weight
  let latency_score := endpoint.metrics.latency_p99_ms * cfg.weights.latency_weight
  cost_score + load_score + latency_score

/-- `CostAwareRouter::check_budget`. -/
def check_budget (s : RouterState) (agent_id : String) (estimated_cost : ℚ) :
    Except RoutingError Unit :=
  match s.budgets.lookup agent_id with
  | some budget =>
      if budget.remaining_tokens < estimated_cost then
        .error (.BudgetExceeded agent_id estimated_cost budget.remaining_tokens)
      else .ok ()
  | none => .ok ()

/-- `CostAwareRouter::get_healthy_endpoints` (in map iteration order). -/
def get_healthy_endpoints (s : RouterState) : List Endpoint :=
  (s.endpoints.map Prod.snd).filter Endpoint.is_healthy

/-- `CostAwareRouter::record_decision`: append to the history, dropping the
oldest 1000 entries past 10000. -/
def record_decision (s : RouterState) (decision : RoutingDecision) :
    RouterState :=
  let history := s.routing_history ++ [decision]
  { s with routing_history :=
      if history.length > 10000 then history.drop 1000 else history }

/-- The comparison `route` sorts by: ascending score, equal scores left in
their pre-sort (map iteration) order.  Rust's `sort_by` is a stable sort,
so its result coincides with stable insertion sort. -/
def sortScored (scored : List (String × ℚ × Endpoint)) :
    List (String × ℚ × Endpoint) :=
  scored.insertionSort (fun a b => a.2.1 ≤ b.2.1)

/-- `CostAwareRouter::route`: budget pre-check, healthy snapshot, score,
stable sort, pick head and two fallbacks, record the decision. -/
def route (cfg : RouterConfig) (s : RouterState) (message : AiMessage) :
    Except RoutingError (RoutingDecision × RouterState) := do
  check_budget s message.agent_id message.estimated_cost_tokens
  let healthy := get_healthy_endpoints s
  if healthy.isEmpty then
    throw .NoHealthyEndpoints
  let scored := healthy.map (fun e =>
    (e.metrics.endpoint_id, score_endpoint cfg e, e))
  let sorted := sortScored scored
  match sorted with
  | [] => throw .NoHealthyEndpoints
  | (best_id, _, best_endpoint) :: rest =>
      let cost_score := best_endpoint.metrics.cost_per_1k_tokens * cfg.weights.cost_weight
      let load_score := best_endpoint.load_percentage * 100 * cfg.weights.load_weight
      let latency_score := best_endpoint.metrics.latency_p99_ms * cfg.weights.latency_weight
      let decision : RoutingDecision :=
        { message_id := message.message_id
          target_endpoint := best_id
          estimated_latency_ms := f64toI32 best_endpoint.metrics.latency_p99_ms
          estimated_cost :=
            best_endpoint.metrics.cost_per_1k_tokens * message.estimated_cost_tokens / 1000
          fallback_endpoints := (rest.take 2).map (fun t => t.1)
          score_breakdown := some
            { cost_score := cost_score
              load_score := load_score
              latency_score := latency_score
              total_score := cost_score + load_score + latency_score } }
      return (decision, record_decision s decision)

/-- `CostAwareRouter::register_endpoint`. -/
def register_endpoint (s : RouterState) (metrics : EndpointMetrics)
    (now_ns : Int) : RouterState :=
  { s with endpoints :=
      insertKV metrics.endpoint_id (Endpoint.new metrics now_ns) s.endpoints }

/-- `CostAwareRouter::update_endpoint_metrics`: replaces the metrics
(including `health_status`) of an existing endpoint; `consecutive_failures`
is left untouched. -/
def update_endpoint_metrics (s : RouterState) (endpoint_id : String)
    (metrics : EndpointMetrics) : Except RoutingError RouterState :=
  if (s.endpoints.lookup endpoint_id).isSome then
    let f := fun (e : Endpoint) => { e with metrics := metrics }
    .ok { s with endpoints := updateKV endpoint_id f s.endpoints }
  else
    .error (.EndpointNotFound endpoint_id)

/-- `CostAwareRouter::record_endpoint_failure`: increment the `u32` failure
counter (wrapping) and mark the endpoint unhealthy at the threshold. -/
def record_endpoint_failure (cfg : RouterConfig) (s : RouterState)
    (endpoint_id : String) : RouterState :=
  let f := fun (e : Endpoint) =>
    let failures := (e.consecutive_failures + 1) % 2 ^ 32
    if failures ≥ cfg.unhealthy_threshold then
      { e with consecutive_failures := failures,
               metrics := { e.metrics with health_status := healthStatusUnhealthy } }
    else
      { e with consecutive_failures := failures }
  { s with endpoints := updateKV endpoint_id f s.endpoints }

/-- `CostAwareRouter::record_endpoint_success`. -/
def record_endpoint_success (s : RouterState) (endpoint_id : String)
    (now_ns : Int) : RouterState :=
  let f := fun (e : Endpoint) =>
    { e with consecutive_failures := 0,
             last_success := now_ns,
             metrics := { e.metrics with health_status := healthStatusHealthy } }
  { s with endpoints := updateKV endpoint_id f s.endpoints }

/-- `CostAwareRouter::set_budget`. -/
def set_budget (s : RouterState) (agent_id : String) (initial_tokens : ℚ)
    (reset_at : Int) : RouterState :=
  let b : BudgetInfo :=
    { agent_id := agent_id,
      initial_tokens := initial_tokens,
      remaining_tokens := initial_tokens,
      consumption_rate := 0,
      reset_at := reset_at }
  { s with budgets := insertKV agent_id b s.budgets }

/-- `CostAwareRouter::consume_budget`: refuse if `remaining < tokens`, else
debit and return the new remainder; a missing budget means unlimited. -/
def consume_budget (s : RouterState) (agent_id : String) (tokens : ℚ) :
    Except RoutingError (ℚ × RouterState) :=
  match s.budgets.lookup agent_id with
  | some budget =>
      if budget.remaining_tokens < tokens then
        .error (.BudgetExceeded agent_id tokens budget.remaining_tokens)
      else
        let f := fun (b : BudgetInfo) =>
          { b with remaining_tokens := b.remaining_tokens - tokens }
        .ok (budget.remaining_tokens - tokens,
          { s with budgets := updateKV agent_id f s.budgets })
  | none => .ok (f64MAXq, s)

/-- `CostAwareRouter::get_remaining_budget`. -/
def get_remaining_budget (s : RouterState) (agent_id : String) : ℚ :=
  match s.budgets.lookup agent_id with
  | some b => b.remaining_tokens
  | none => f64MAXq

/-! ## Rate limit module (`src/ratelimit/mod.rs`)

Modelled at a single instant (no time elapses between calls): `refill` sees
zero elapsed milliseconds and adds nothing, and the sliding window's cutoff
removes nothing, exactly as in executions of the source where the calls
happen back to back. -/

/-- `RateLimitError`. -/
inductive RateLimitError where
  | LimitExceeded (key : String) (limit : Nat) (window_secs : Nat)
  | QuotaExhausted (key : String)
deriving DecidableEq

/-- `RateLimitConfig`. -/
structure RateLimitConfig where
  requests_per_second : Nat
  burst_capacity : Nat
  window_secs : Nat
  adaptive : Bool
deriving DecidableEq

/-- `RateLimitConfig::default`. -/
def RateLimitConfig.default : RateLimitConfig :=
  { requests_per_second := 100, burst_capacity := 200,
    window_secs := 60, adaptive := true }

/-- `TokenBucket` state (`last_refill` is irrelevant at a single instant). -/
structure TokenBucket where
  tokens : Nat
  capacity : Nat
  refill_rate : Nat
deriving DecidableEq

/-- `TokenBucket::new`: starts full. -/
def TokenBucket.new (capacity : Nat) (refill_rate : Nat) : TokenBucket :=
  { tokens := capacity, capacity := capacity, refill_rate := refill_rate }

/-- `TokenBucket::try_acquire` (refill is a no-op with zero elapsed time):
debit `count` tokens if available. -/
def TokenBucket.try_acquire (b : TokenBucket) (count : Nat) :
    Bool × TokenBucket :=
  if b.tokens < count then (false, b)
  else (true, { b with tokens := b.tokens - count })

/-- `SlidingWindow` state: the counts of the recorded entries (all within
the window at a single instant). -/
structure SlidingWindow where
  counts : List Nat
  window_secs : Nat
  limit : Nat
deriving DecidableEq

/-- `SlidingWindow::new`. -/
def SlidingWindow.new (window_secs : Nat) (limit : Nat) : SlidingWindow :=
  { counts := [], window_secs := window_secs, limit := limit }

/-- `SlidingWindow::try_acquire`: sum the surviving counts and admit iff
`total + count ≤ limit`, recording the entry on admission. -/
def SlidingWindow.try_acquire (w : SlidingWindow) (count : Nat) :
    Bool × SlidingWindow :=
  let total := w.counts.sum
  if total + count ≤ w.limit then
    (true, { w with counts := w.counts ++ [count] })
  else
    (false, w)

/-- `RateLimiter` state. -/
structure RateLimiter where
  config : RateLimitConfig
  buckets : List (String × TokenBucket)
  windows : List (String × SlidingWindow)
  global_bucket : TokenBucket
deriving DecidableEq

/-- `RateLimiter::new`: the global bucket gets 10× the per-key capacity
and refill rate. -/
def RateLimiter.new (config : RateLimitConfig) : RateLimiter :=
  { config := config
    buckets := []
    windows := []
    global_bucket := TokenBucket.new (config.burst_capacity * 10)
      (config.requests_per_second * 10) }

/-- `RateLimiter::acquire_n`: global bucket, then per-key bucket (created on
first use), then per-key sliding window (created on first use), each an
early return on rejection.  The pair carries the limiter state as left by
the call — consumption already committed upstream of a rejection stays
committed, as in the source. -/
def acquire_n (s : RateLimiter) (key : String) (count : Nat) :
    Except RateLimitError Unit × RateLimiter :=
  let (okG, g) := s.global_bucket.try_acquire count
  let s1 := { s with global_bucket := g }
  if !okG then
    (.error (.LimitExceeded "global" (s.config.requests_per_second * 10) 1), s1)
  else
    let bucket := (s1.buckets.lookup key).getD
      (TokenBucket.new s1.config.burst_capacity s1.config.requests_per_second)
    let (okB, b) := bucket.try_acquire count
    let s2 := { s1 with buckets := insertKV key b s1.buckets }
    if !okB then
      (.error (.LimitExceeded key s2.config.requests_per_second 1), s2)
    else
      let window := (s2.windows.lookup key).getD
        (SlidingWindow.new s2.config.window_secs
          (s2.config.requests_per_second * s2.config.window_secs))
      let (okW, w) := window.try_acquire count
      let s3 := { s2 with windows := insertKV key w s2.windows }
      if !okW then
        (.error (.LimitExceeded key
          (s3.config.requests_per_second * s3.config.window_secs)
          s3.config.window_secs), s3)
      else
        (.ok (), s3)

/-- `RateLimiter::acquire`. -/
def acquire (s : RateLimiter) (key : String) :
    Except RateLimitError Unit × RateLimiter :=
  acquire_n s key 1

/-- `n` back-to-back `acquire(key)` calls; stops at the first rejection,
returning it with the state at that point. -/
def acquireSeq (s : RateLimiter) (key : String) :
    Nat → Except RateLimitError Unit × RateLimiter
  | 0 => (.ok (), s)
  | n + 1 =>
      match acquireSeq s key n with
      | (.ok _, s') => acquire s' key
      | err => err

/-! ## Dedup module (`src/dedup/mod.rs`)

The cryptographic digest (the external `blake3` crate, a 32-byte output)
is a parameter `digest` of the definitions; the optional `StorageLayer`
backing is external I/O, absent in a deduplicator built by
`SemanticDeduplicator::new`, and is not modelled. -/

/-- `SemanticDeduplicator` state: the in-memory cache
`hash → (timestamp_secs, result)` and the TTL. -/
structure DedupState where
  cache : List (String × (Int × List Nat))
  ttl_secs : Nat
deriving DecidableEq

/-- `SemanticDeduplicator::new`. -/
def DedupState.new (ttl_secs : Nat) : DedupState :=
  { cache := [], ttl_secs := ttl_secs }

/-- Lower-case hex digit, as produced by `hex::encode`. -/
def hexDigit (n : Nat) : Char :=
  if n < 10 then Char.ofNat (48 + n) else Char.ofNat (97 + (n - 10))

/-- `hex::encode`: two lower-case hex characters per byte. -/
def hexEncode (bytes : List Nat) : String :=
  String.mk ((bytes.map (fun b => [hexDigit (b / 16), hexDigit (b % 16)])).flatten)

/-- The UTF-8 bytes of a string (`str::as_bytes`). -/
def stringToBytes (s : String) : List Nat :=
  s.toUTF8.toList.map UInt8.toNat

/-- `SemanticDeduplicator::compute_hash`: digest of
`payload || dedup_context`, hex-encoded.  `agent_id` is not hashed. -/
def compute_hash (digest : List Nat → List Nat) (message : AiMessage) :
    String :=
  hexEncode (digest (message.payload ++ stringToBytes message.dedup_context))

/-- `SemanticDeduplicator::check_duplicate` (in-memory path): return the
cached result while within TTL; evict an expired entry. -/
def check_duplicate (digest : List Nat → List Nat) (d : DedupState)
    (message : AiMessage) (now_secs : Int) :
    Option (List Nat) × DedupState :=
  let hash := compute_hash digest message
  match d.cache.lookup hash with
  | some (timestamp, result) =>
      if now_secs - timestamp < (d.ttl_secs : Int) then (some result, d)
      else (none, { d with cache := d.cache.filter (fun p => p.1 != hash) })
  | none => (none, d)

/-- `SemanticDeduplicator::record`. -/
def dedupRecord (digest : List Nat → List Nat) (d : DedupState)
    (message : AiMessage) (result : List Nat) (now_secs : Int) : DedupState :=
  { d with cache := insertKV (compute_hash digest message) (now_secs, result) d.cache }

/-! ## Tenant module (`src/tenant/mod.rs`) -/

/-- `u64::MAX`. -/
def u64MAX : Nat := 2 ^ 64 - 1

/-- `u32::MAX` (`u64::MAX as u32`). -/
def u32MAX : Nat := 2 ^ 32 - 1

/-- `TenantError`. -/
inductive TenantError where
  | NotFound (id : String)
  | QuotaExceeded (resource : String)
  | Suspended (id : String)
  | InvalidConfig (msg : String)
deriving DecidableEq

/-- `TenantStatus`. -/
inductive TenantStatus where
  | Active
  | Suspended
  | PendingDeletion
deriving DecidableEq

/-- `TenantTier`. -/
inductive TenantTier where
  | Free
  | Starter
  | Professional
  | Enterprise
deriving DecidableEq

/-- `TenantQuotas`. -/
structure TenantQuotas where
  max_agents : Nat
  max_messages_per_day : Nat
  max_tokens_per_day : Nat
  max_endpoints : Nat
  max_concurrent_requests : Nat
  storage_bytes : Nat
deriving DecidableEq

/-- `TenantTier::default_quotas`. -/
def TenantTier.default_quotas : TenantTier → TenantQuotas
  | .Free =>
      { max_agents := 5, max_messages_per_day := 1000,
        max_tokens_per_day := 10000, max_endpoints := 2,
        max_concurrent_requests := 10, storage_bytes := 100 * 1024 * 1024 }
  | .Starter =>
      { max_agents := 25, max_messages_per_day := 50000,
        max_tokens_per_day := 500000, max_endpoints := 10,
        max_concurrent_requests := 100, storage_bytes := 1024 * 1024 * 1024 }
  | .Professional =>
      { max_agents := 100, max_messages_per_day := 500000,
        max_tokens_per_day := 5000000, max_endpoints := 50,
        max_concurrent_requests := 500, storage_bytes := 10 * 1024 * 1024 * 1024 }
  | .Enterprise =>
      { max_agents := u64MAX, max_messages_per_day := u64MAX,
        max_tokens_per_day := u64MAX, max_endpoints := u32MAX,
        max_concurrent_requests := u32MAX, storage_bytes := u64MAX }

/-- `TenantUsage`. -/
structure TenantUsage where
  agents_count : Nat
  messages_today : Nat
  tokens_today : Nat
  endpoints_count : Nat
  concurrent_requests : Nat
  storage_used : Nat
  last_reset : Int
deriving DecidableEq

/-- `TenantUsage::default`. -/
def TenantUsage.default : TenantUsage :=
  { agents_count := 0, messages_today := 0, tokens_today := 0,
    endpoints_count := 0, concurrent_requests := 0, storage_used := 0,
    last_reset := 0 }

/-- `TenantUsage::check_quota`: the six checks, in source order. -/
def TenantUsage.check_quota (u : TenantUsage) (quotas : TenantQuotas) :
    Except TenantError Unit :=
  if u.agents_count ≥ quotas.max_agents then
    .error (.QuotaExceeded "max_agents")
  else if u.messages_today ≥ quotas.max_messages_per_day then
    .error (.QuotaExceeded "max_messages_per_day")
  else if u.tokens_today ≥ quotas.max_tokens_per_day then
    .error (.QuotaExceeded "max_tokens_per_day")
  else if u.endpoints_count ≥ quotas.max_endpoints then
    .error (.QuotaExceeded "max_endpoints")
  else if u.concurrent_requests ≥ quotas.max_concurrent_requests then
    .error (.QuotaExceeded "max_concurrent_requests")
  else if u.storage_used ≥ quotas.storage_bytes then
    .error (.QuotaExceeded "storage_bytes")
  else
    .ok ()

/-- `Tenant`. -/
structure Tenant where
  id : String
  name : String
  tier : TenantTier
  status : TenantStatus
  quotas : TenantQuotas
  metadata : List (String × String)
  created_at : Int
deriving DecidableEq

/-- `Tenant::new`, with the clock passed in. -/
def Tenant.new (id : String) (name : String) (tier : TenantTier)
    (now_ns : Int) : Tenant :=
  { id := id, name := name, tier := tier, status := .Active,
    quotas := tier.default_quotas, metadata := [], created_at := now_ns }

/-- `Tenant::is_active`. -/
def Tenant.is_active (t : Tenant) : Bool :=
  t.status = TenantStatus.Active

/-- `TenantManager` state. -/
structure TenantManager where
  tenants : List (String × Tenant)
  usage : List (String × TenantUsage)
  agent_tenants : List (String × String)
deriving DecidableEq

/-- `TenantManager::new`. -/
def TenantManager.new : TenantManager :=
  { tenants := [], usage := [], agent_tenants := [] }

/-- `TenantManager::create_tenant`. -/
def create_tenant (mgr : TenantManager) (id : String) (name : String)
    (tier : TenantTier) (now_ns : Int) : TenantManager × Tenant :=
  let tenant := Tenant.new id name tier now_ns
  ({ mgr with tenants := insertKV id tenant mgr.tenants,
              usage := insertKV id TenantUsage.default mgr.usage },
   tenant)

/-- `TenantManager::record_message`: requires an existing, active tenant;
checks the quota then bumps today's message and token counters.  A missing
usage record is skipped silently, as in the source. -/
def record_message (mgr : TenantManager) (tenant_id : String)
    (tokens : Nat) : Except TenantError TenantManager := do
  match mgr.tenants.lookup tenant_id with
  | none => throw (.NotFound tenant_id)
  | some tenant =>
      if !tenant.is_active then
        throw (.Suspended tenant_id)
      else
        match mgr.usage.lookup tenant_id with
        | none => return mgr
        | some u => do
            u.check_quota tenant.quotas
            let f := fun (u : TenantUsage) =>
              { u with messages_today := u.messages_today + 1,
                       tokens_today := u.tokens_today + tokens }
            return { mgr with usage := updateKV tenant_id f mgr.usage }

/-! ## Shared concrete inputs for witnesses and counterexamples -/

/-- A concrete message with the defaulted fields of `AiMessage::new`. -/
def sampleMsg (agent : String) (payload : List Nat) (priority : Int)
    (deadline : Int) (ctx : String) : AiMessage :=
  { agent_id := agent, message_id := "m-1", payload := payload,
    estimated_cost_tokens := 0, budget_tokens := 100,
    deadline_ms := deadline, task_graph_id := "", dependencies := [],
    priority := priority, dedup_context := ctx, trace_id := "t-1",
    metadata := [], timestamp := 0 }

/-! ## C7 — budget round-trip and rejection -/

/-- Helper: looking up a key right after an `insertKV` of that key. -/
theorem lookup_insertKV {V : Type} (k : String) (v : V)
    (l : List (String × V)) : (insertKV k v l).lookup k = some v := by
  simp [insertKV, List.lookup]

/-- Helper: `updateKV` rewrites the binding found by `lookup`. -/
theorem lookup_updateKV {V : Type} (k : String) (f : V → V)
    (l : List (String × V)) :
    (updateKV k f l).lookup k = (l.lookup k).map f := by
  induction l with
  | nil => simp [updateKV]
  | cons p rest ih =>
      obtain ⟨k', v⟩ := p
      by_cases h : k' = k
      · subst h
        simp [updateKV, List.lookup]
      · have hb : (k == k') = false := by
          simp [Ne.symm h]
        simp [updateKV, List.lookup, h, hb, ih]

/-- C7: after `set_budget(a, N, _)`, a consume of `k` with `0 ≤ k ≤ N`
succeeds, returns `N − k`, and `get_remaining_budget` then reads `N − k`
(never negative); and any consume of `k` larger than the remaining tokens
returns `BudgetExceeded` with `required = k` and `available = remaining`,
producing no successor state. -/
theorem consume_budget_spec (s : RouterState) (a : String) (N k : ℚ)
    (r : Int) (_h0 : 0 ≤ k) (hk : k ≤ N) :
    ((consume_budget (set_budget s a N r) a k).map Prod.fst = .ok (N - k) ∧
      (consume_budget (set_budget s a N r) a k).map
        (fun p => get_remaining_budget p.2 a) = .ok (N - k) ∧
      0 ≤ N - k) ∧
    (∀ (s0 : RouterState) (b : BudgetInfo),
      s0.budgets.lookup a = some b → b.remaining_tokens < k →
      consume_budget s0 a k =
        .error (.BudgetExceeded a k b.remaining_tokens)) := by
  refine ⟨⟨?_, ?_, by linarith⟩, ?_⟩
  · simp [consume_budget, set_budget, lookup_insertKV, not_lt.mpr hk,
      Except.map]
  · simp [consume_budget, set_budget, get_remaining_budget,
      lookup_updateKV, lookup_insertKV, not_lt.mpr hk, Except.map]
  · intro s0 b hlook hlt
    simp [consume_budget, hlook, hlt]

/-- C7 witness at a concrete budget. -/
theorem consume_budget_spec_witness :
    (consume_budget (set_budget RouterState.new "a" 100 0) "a" 30).map
        Prod.fst = .ok 70 ∧
    (consume_budget (set_budget RouterState.new "a" 100 0) "a" 30).map
        (fun p => get_remaining_budget p.2 "a") = .ok 70 := by
  have h := (consume_budget_spec RouterState.new "a" 100 30 0
    (by norm_num) (by norm_num)).1
  norm_num at h
  exact ⟨h.1, h.2⟩

/-! ## C9 — Free-tier daily message quota -/

/-- The manager right after `create_tenant("t1", "Test Tenant", Free)`. -/
def c9Manager0 : TenantManager :=
  (create_tenant TenantManager.new "t1" "Test Tenant" .Free 0).1

/-- One `record_message(t1, 1)` call. -/
def c9Step (mgr : TenantManager) : Except TenantError TenantManager :=
  record_message mgr "t1" 1

/-- `n` successive `record_message(t1, 1)` calls (errors propagate). -/
def c9Seq : Nat → Except TenantError TenantManager
  | 0 => .ok c9Manager0
  | n + 1 => c9Seq n >>= c9Step

/-- The `t1` usage record after `k` recorded messages of one token each. -/
def c9Usage (k : Nat) : TenantUsage :=
  { agents_count := 0, messages_today := k, tokens_today := k,
    endpoints_count := 0, concurrent_requests := 0, storage_used := 0,
    last_reset := 0 }

/-- The whole manager state after `k` recorded messages. -/
def c9Mgr (k : Nat) : TenantManager :=
  { tenants := [("t1", Tenant.new "t1" "Test Tenant" .Free 0)],
    usage := [("t1", c9Usage k)],
    agent_tenants := [] }

theorem c9Manager0_eq : c9Manager0 = c9Mgr 0 := by
  rfl

/-- A single step from the state after `k < 1000` messages succeeds. -/
theorem c9Step_ok (k : Nat) (hk : k < 1000) :
    c9Step (c9Mgr k) = .ok (c9Mgr (k + 1)) := by
  have h1 : ¬ k ≥ 1000 := by omega
  have h2 : ¬ k ≥ 10000 := by omega
  simp [c9Step, record_message, c9Mgr, c9Usage, Tenant.new, Tenant.is_active,
    TenantUsage.check_quota, TenantTier.default_quotas, updateKV,
    List.lookup, h1, h2]

/-- The 1001st step is refused on the daily message quota. -/
theorem c9Step_fail :
    c9Step (c9Mgr 1000) = .error (.QuotaExceeded "max_messages_per_day") := by
  simp [c9Step, record_message, c9Mgr, c9Usage, Tenant.new, Tenant.is_active,
    TenantUsage.check_quota, TenantTier.default_quotas, List.lookup]

/-- C9: on a fresh Free-tier tenant `t1`, every prefix of up to 1000
`record_message(t1, 1)` calls succeeds (reaching the expected usage
counters), and the 1001st call returns
`QuotaExceeded("max_messages_per_day")`. -/
theorem free_tier_message_quota :
    (∀ k, k ≤ 1000 → c9Seq k = .ok (c9Mgr k)) ∧
    c9Seq 1001 = .error (.QuotaExceeded "max_messages_per_day") := by
  have hseq : ∀ k, k ≤ 1000 → c9Seq k = .ok (c9Mgr k) := by
    intro k
    induction k with
    | zero => intro _; simp [c9Seq, c9Manager0_eq]
    | succ n ih =>
        intro hn
        have hs := ih (by omega)
        rw [c9Seq, hs]
        exact c9Step_ok n (by omega)
  refine ⟨hseq, ?_⟩
  have h1000 := hseq 1000 (by omega)
  show c9Seq (1000 + 1) = _
  rw [c9Seq, h1000]
  exact c9Step_fail

/-- C9 witness: the full 1000-message prefix evaluated, then the refusal. -/
theorem free_tier_message_quota_witness :
    c9Seq 1000 = .ok (c9Mgr 1000) ∧
    c9Seq 1001 = .error (.QuotaExceeded "max_messages_per_day") :=
  ⟨free_tier_message_quota.1 1000 (by omega), free_tier_message_quota.2⟩

/-! ## C10 — out-of-range priorities map to Critical and jump the queue -/

/-- The enum discriminant is between 0 and 3. -/
theorem rank_bounds (l : PriorityLevel) : 0 ≤ l.rank ∧ l.rank ≤ 3 := by
  cases l <;> simp [PriorityLevel.rank]

/-- An effective priority never exceeds the band base plus the maximal
deadline boost of 500. -/
theorem effective_priority_le (pm : PrioritizedMessage) (now_ms : Int) :
    pm.effective_priority now_ms ≤ pm.priority_level.rank * 1000 + 500 := by
  simp only [PrioritizedMessage.effective_priority]
  split <;> [omega; (split <;> [omega; (split <;> [omega; (split <;> omega)])])]

/-- An effective priority is at least the band base. -/
theorem effective_priority_ge (pm : PrioritizedMessage) (now_ms : Int) :
    pm.priority_level.rank * 1000 ≤ pm.effective_priority now_ms := by
  simp only [PrioritizedMessage.effective_priority]
  split <;> [omega; (split <;> [omega; (split <;> [omega; (split <;> omega)])])]

/-- C10: a priority outside `0..=75` — every negative one included — lands
in the `Critical` band; `push` accepts any message while the queue has
room, with no priority validation; and a pushed message with
`priority = -1` compares strictly above every message of a non-Critical
band, at any instant. -/
theorem out_of_range_priority_is_critical :
    (∀ p : Int, p < 0 ∨ p > 75 → PriorityLevel.fromI32 p = .Critical) ∧
    (∀ (cfg : PriorityQueueConfig) (heap : List PrioritizedMessage)
        (m : AiMessage) (t : Int), heap.length < cfg.max_size →
      queuePush cfg heap m t = .ok (PrioritizedMessage.new m t :: heap)) ∧
    (∀ (now_ms : Int) (m m2 : AiMessage) (t t2 : Int), m.priority = -1 →
      PriorityLevel.fromI32 m2.priority ≠ .Critical →
      (PrioritizedMessage.new m2 t2).effective_priority now_ms <
        (PrioritizedMessage.new m t).effective_priority now_ms) := by
  have hcrit : ∀ p : Int, p < 0 ∨ p > 75 → PriorityLevel.fromI32 p = .Critical := by
    intro p hp
    simp only [PriorityLevel.fromI32]
    rw [if_neg (by omega), if_neg (by omega), if_neg (by omega)]
  refine ⟨hcrit, ?_, ?_⟩
  · intro cfg heap m t h
    simp [queuePush, Nat.not_le.mpr h]
  · intro now_ms m m2 t t2 hm hm2
    have h1 : (PrioritizedMessage.new m t).priority_level = .Critical := by
      simp [PrioritizedMessage.new, hm, hcrit (-1) (by norm_num)]
    have h2 := effective_priority_ge (PrioritizedMessage.new m t) now_ms
    rw [h1] at h2
    have h3 := effective_priority_le (PrioritizedMessage.new m2 t2) now_ms
    have h4 : (PrioritizedMessage.new m2 t2).priority_level.rank ≤ 2 := by
      have : (PrioritizedMessage.new m2 t2).priority_level ≠ .Critical := by
        simpa [PrioritizedMessage.new] using hm2
      cases hl : (PrioritizedMessage.new m2 t2).priority_level <;>
        simp_all [PriorityLevel.rank]
    simp only [PriorityLevel.rank] at h2
    omega

/-- C10 witness: `priority = -1` versus a Normal-band message. -/
theorem out_of_range_priority_is_critical_witness :
    PriorityLevel.fromI32 (-1) = .Critical ∧
    queuePush PriorityQueueConfig.default []
        (sampleMsg "a" [] (-1) i64MAX "") 0 =
      .ok [PrioritizedMessage.new (sampleMsg "a" [] (-1) i64MAX "") 0] ∧
    (PrioritizedMessage.new (sampleMsg "a" [] 50 i64MAX "") 0).effective_priority 0 <
      (PrioritizedMessage.new (sampleMsg "a" [] (-1) i64MAX "") 0).effective_priority 0 :=
  ⟨out_of_range_priority_is_critical.1 (-1) (Or.inl (by norm_num)),
   out_of_range_priority_is_critical.2.1 PriorityQueueConfig.default []
     (sampleMsg "a" [] (-1) i64MAX "") 0 (by simp [PriorityQueueConfig.default]),
   out_of_range_priority_is_critical.2.2 0 (sampleMsg "a" [] (-1) i64MAX "")
     (sampleMsg "a" [] 50 i64MAX "") 0 0 rfl (by decide)⟩

/-! ## C8 — fingerprint ignores `agent_id`; record/check round-trip -/

/-- Hex encoding yields two characters per byte. -/
theorem hexEncode_length (bytes : List Nat) :
    (hexEncode bytes).length = 2 * bytes.length := by
  induction bytes with
  | nil => rfl
  | cons b rest ih =>
      simp only [hexEncode, List.map_cons, List.flatten_cons] at ih ⊢
      simp only [String.length] at ih ⊢
      simp [ih]
      omega

/-- C8: for any 32-byte digest function, two messages agreeing on `payload`
and `dedup_context` get the identical 64-character hex fingerprint whatever
their `agent_id`s are, and a `check_duplicate` after `record` — on any such
message, within the TTL window — returns the recorded result. -/
theorem dedup_fingerprint_spec (digest : List Nat → List Nat)
    (hdig : ∀ x, (digest x).length = 32)
    (m1 m2 : AiMessage) (hpay : m1.payload = m2.payload)
    (hctx : m1.dedup_context = m2.dedup_context)
    (d : DedupState) (r : List Nat) (t now : Int)
    (httl : now - t < (d.ttl_secs : Int)) :
    compute_hash digest m1 = compute_hash digest m2 ∧
    (compute_hash digest m1).length = 64 ∧
    (check_duplicate digest (dedupRecord digest d m1 r t) m2 now).1 = some r := by
  have hash_eq : compute_hash digest m1 = compute_hash digest m2 := by
    simp [compute_hash, hpay, hctx]
  refine ⟨hash_eq, ?_, ?_⟩
  · simp [compute_hash, hexEncode_length, hdig]
  · simp [check_duplicate, dedupRecord, ← hash_eq, lookup_insertKV, httl]

/-- C8 witness: a constant 32-byte digest, two agents, one payload. -/
theorem dedup_fingerprint_spec_witness :
    compute_hash (fun _ => List.replicate 32 0) (sampleMsg "agent-1" [1, 2] 50 0 "c1") =
      compute_hash (fun _ => List.replicate 32 0) (sampleMsg "agent-2" [1, 2] 50 0 "c1") ∧
    (compute_hash (fun _ => List.replicate 32 0)
      (sampleMsg "agent-1" [1, 2] 50 0 "c1")).length = 64 ∧
    (check_duplicate (fun _ => List.replicate 32 0)
      (dedupRecord (fun _ => List.replicate 32 0) (DedupState.new 3600)
        (sampleMsg "agent-1" [1, 2] 50 0 "c1") [9] 5)
      (sampleMsg "agent-2" [1, 2] 50 0 "c1") 10).1 = some [9] :=
  dedup_fingerprint_spec (fun _ => List.replicate 32 0)
    (fun x => by simp)
    (sampleMsg "agent-1" [1, 2] 50 0 "c1") (sampleMsg "agent-2" [1, 2] 50 0 "c1")
    rfl rfl (DedupState.new 3600) [9] 5 10 (by norm_num [DedupState.new])

/-! ## C3 — `deadline_ms = 0` across validation, expiry, and the scheduler -/

/-- A valid message with `deadline_ms = 0` ("unset"). -/
def c3msg : AiMessage := sampleMsg "a" [] 50 0 ""

/-- C3: at wall-clock 1 ms a `deadline_ms = 0` message passes `validate`
and is not expired for `AiMessage::is_expired`, yet the scheduler's
`PrioritizedMessage::is_expired` — which special-cases only `i64::MAX` —
reports it expired, and `pop` with `drop_expired` silently drops it
instead of returning it. -/
theorem deadline_zero_scheduler_divergence :
    c3msg.validate 1 = .ok () ∧
    c3msg.is_expired 1 = false ∧
    (PrioritizedMessage.new c3msg 0).is_expired 1 = true ∧
    queuePop PriorityQueueConfig.default [PrioritizedMessage.new c3msg 0] 1 =
      none := by
  refine ⟨by decide, by decide, by decide, by decide⟩

/-! ## C2 / C6 — rate limiter composition -/

/-- The scenario configuration `rps = 10, burst = 20, window = 1 s`. -/
def rlCfg : RateLimitConfig :=
  { requests_per_second := 10, burst_capacity := 20, window_secs := 1,
    adaptive := false }

/-- C2: rejections by the per-key stages leave upstream consumption
committed.  A per-key bucket rejection (`acquire_n("k", 21)` on a fresh
limiter) has already debited the global bucket from 200 to 179; a sliding
window rejection (`acquire_n("k", 15)`) has already debited the global
bucket to 185 and the per-key bucket to 5. -/
theorem acquire_n_commits_upstream_consumption :
    ((acquire_n (RateLimiter.new rlCfg) "k" 21).1 =
        .error (.LimitExceeded "k" 10 1) ∧
      (acquire_n (RateLimiter.new rlCfg) "k" 21).2.global_bucket.tokens = 179 ∧
      (RateLimiter.new rlCfg).global_bucket.tokens = 200) ∧
    ((acquire_n (RateLimiter.new rlCfg) "k" 15).1 =
        .error (.LimitExceeded "k" 10 1) ∧
      (acquire_n (RateLimiter.new rlCfg) "k" 15).2.global_bucket.tokens = 185 ∧
      ((acquire_n (RateLimiter.new rlCfg) "k" 15).2.buckets.lookup "k").map
        TokenBucket.tokens = some 5) := by
  refine ⟨⟨by decide, by decide, by decide⟩, by decide, by decide, by decide⟩

/-- C6: on a fresh limiter with `rps = 10, burst = 20, window = 1` and no
time elapsing, the first 10 `acquire("k")` calls succeed and the 11th is
already rejected with `LimitExceeded { key: "k", limit: 10, window_secs: 1 }`
(the sliding window's limit is `rps · window = 10`), so a run of 20
successive successes is impossible. -/
theorem acquire_seq_rejects_at_eleventh :
    (acquireSeq (RateLimiter.new rlCfg) "k" 10).1 = .ok () ∧
    (acquireSeq (RateLimiter.new rlCfg) "k" 11).1 =
      .error (.LimitExceeded "k" 10 1) ∧
    (acquireSeq (RateLimiter.new rlCfg) "k" 20).1 ≠ .ok () := by
  refine ⟨by decide, by decide, by decide⟩

/-! ## C4 — the endpoint scoring formula -/

/-- The score formula exactly as the specification words it:
`w_cost · cost + w_load · (current_load / max(1, capacity)) · 100 +
w_latency · latency_p99_ms`.  Written from the spec, for comparison
against `score_endpoint` from the source. -/
def spec_score (cfg : RouterConfig) (e : Endpoint) : ℚ :=
  cfg.weights.cost_weight * e.metrics.cost_per_1k_tokens +
  cfg.weights.load_weight *
    ((e.metrics.current_load : ℚ) / ((max 1 e.metrics.capacity : Nat) : ℚ)) * 100 +
  cfg.weights.latency_weight * e.metrics.latency_p99_ms

/-- A healthy endpoint with `capacity = 0` and `current_load = 5`. -/
def c4e : Endpoint :=
  Endpoint.new
    { endpoint_id := "z", capacity := 0, current_load := 5,
      cost_per_1k_tokens := 0, latency_p99_ms := 0, error_rate := 0,
      last_health_check := 0, health_status := healthStatusHealthy } 0

/-- C4 counterexample: with default weights, the healthy zero-capacity
endpoint `c4e` scores `0.3 · 1.0 · 100 = 30` in the source (capacity 0 is
treated as fully loaded), while the claimed formula
`w_load · (current_load / max(1, capacity)) · 100` gives `0.3 · 5 · 100 = 150`. -/
theorem score_endpoint_capacity_zero_cex :
    c4e.is_healthy = true ∧
    score_endpoint RouterConfig.default c4e = 30 ∧
    spec_score RouterConfig.default c4e = 150 ∧
    score_endpoint RouterConfig.default c4e ≠ spec_score RouterConfig.default c4e := by
  have h2 : score_endpoint RouterConfig.default c4e = 30 := by
    norm_num [score_endpoint, c4e, Endpoint.new, Endpoint.load_percentage,
      RouterConfig.default, ScoringWeights.default]
  have h3 : spec_score RouterConfig.default c4e = 150 := by
    norm_num [spec_score, c4e, Endpoint.new, RouterConfig.default,
      ScoringWeights.default]
  refine ⟨by decide, h2, h3, ?_⟩
  rw [h2, h3]
  norm_num

/-- C4 amended: for every endpoint of capacity ≥ 1 the source score equals
the specified formula; for capacity 0 the load fraction is pinned to `1.0`
(fully loaded), so the load term is `w_load · 100` independent of
`current_load`. -/
theorem score_endpoint_spec (cfg : RouterConfig) (e : Endpoint) :
    (e.metrics.capacity ≠ 0 → score_endpoint cfg e = spec_score cfg e) ∧
    (e.metrics.capacity = 0 →
      score_endpoint cfg e =
        cfg.weights.cost_weight * e.metrics.cost_per_1k_tokens +
        cfg.weights.load_weight * 100 +
        cfg.weights.latency_weight * e.metrics.latency_p99_ms) := by
  constructor
  · intro h
    have hmax : max 1 e.metrics.capacity = e.metrics.capacity :=
      Nat.max_eq_right (Nat.one_le_iff_ne_zero.mpr h)
    simp only [score_endpoint, spec_score, Endpoint.load_percentage, h,
      if_false, hmax]
    ring
  · intro h
    simp only [score_endpoint, Endpoint.load_percentage, h, if_true]
    ring

/-- A healthy endpoint with `capacity = 2`. -/
def c4e2 : Endpoint :=
  Endpoint.new
    { endpoint_id := "y", capacity := 2, current_load := 1,
      cost_per_1k_tokens := 7, latency_p99_ms := 3, error_rate := 0,
      last_health_check := 0, health_status := healthStatusHealthy } 0

/-- C4 amended witness: a capacity-2 endpoint matches the spec formula,
and the zero-capacity endpoint `c4e` gets the pinned load term. -/
theorem score_endpoint_spec_witness :
    score_endpoint RouterConfig.default c4e2 = spec_score RouterConfig.default c4e2 ∧
    score_endpoint RouterConfig.default c4e =
      RouterConfig.default.weights.cost_weight * c4e.metrics.cost_per_1k_tokens +
      RouterConfig.default.weights.load_weight * 100 +
      RouterConfig.default.weights.latency_weight * c4e.metrics.latency_p99_ms :=
  ⟨(score_endpoint_spec RouterConfig.default c4e2).1 (by decide),
   (score_endpoint_spec RouterConfig.default c4e).2 (by decide)⟩

/-! ## C5 — the Healthy ⇒ failures-below-threshold invariant -/

/-- The invariant claimed for endpoints: every Healthy endpoint keeps its
consecutive-failure count strictly below the configured threshold. -/
def HealthyInv (cfg : RouterConfig) (s : RouterState) : Prop :=
  ∀ p ∈ s.endpoints, p.2.is_healthy = true →
    p.2.consecutive_failures < cfg.unhealthy_threshold

/-- Healthy metrics used to (re)register the endpoint `"e"`. -/
def c5metrics : EndpointMetrics :=
  { endpoint_id := "e", capacity := 100, current_load := 0,
    cost_per_1k_tokens := 1, latency_p99_ms := 5, error_rate := 0,
    last_health_check := 0, health_status := healthStatusHealthy }

/-- Register `"e"` healthy, then record three consecutive failures. -/
def c5s1 : RouterState :=
  record_endpoint_failure RouterConfig.default
    (record_endpoint_failure RouterConfig.default
      (record_endpoint_failure RouterConfig.default
        (register_endpoint RouterState.new c5metrics 0) "e") "e") "e"

/-- C5 counterexample: after three failures (threshold 3) `"e"` is
Unhealthy with `consecutive_failures = 3`; one `update_endpoint_metrics`
carrying Healthy metrics then yields a Healthy endpoint whose
`consecutive_failures = 3` is not below the threshold — the sequence
register, 3 × failure, update violates the claimed invariant. -/
theorem healthy_invariant_cex :
    RouterConfig.default.unhealthy_threshold = 3 ∧
    (c5s1.endpoints.lookup "e").map
      (fun e => (e.is_healthy, e.consecutive_failures)) = some (false, 3) ∧
    (update_endpoint_metrics c5s1 "e" c5metrics).map
      (fun s2 => (s2.endpoints.lookup "e").map
        (fun e => (e.is_healthy, e.consecutive_failures))) =
      .ok (some (true, 3)) := by
  refine ⟨by decide, by decide, by decide⟩

/-- The endpoint operations of the amended invariant
(`update_endpoint_metrics` excluded). -/
inductive EndpointOp where
  | register (metrics : EndpointMetrics) (now_ns : Int)
  | failure (endpoint_id : String)
  | success (endpoint_id : String) (now_ns : Int)

/-- Run one endpoint operation on the router state. -/
def applyOp (cfg : RouterConfig) (s : RouterState) : EndpointOp → RouterState
  | .register m t => register_endpoint s m t
  | .failure id => record_endpoint_failure cfg s id
  | .success id t => record_endpoint_success s id t

/-- Run a sequence of endpoint operations. -/
def applyOps (cfg : RouterConfig) (s : RouterState)
    (ops : List EndpointOp) : RouterState :=
  ops.foldl (applyOp cfg) s

/-- Membership in an `insertKV` result comes from the new binding or the
old list. -/
theorem mem_insertKV {V : Type} (k : String) (v : V)
    (l : List (String × V)) (p : String × V) (hp : p ∈ insertKV k v l) :
    p = (k, v) ∨ p ∈ l := by
  simp only [insertKV, List.mem_cons] at hp
  rcases hp with h | h
  · exact Or.inl h
  · exact Or.inr (List.mem_of_mem_filter h)

/-- Membership in an `updateKV` result comes from an untouched binding or
from applying the update to an old binding. -/
theorem mem_updateKV {V : Type} (k : String) (f : V → V)
    (l : List (String × V)) (p : String × V) (hp : p ∈ updateKV k f l) :
    p ∈ l ∨ ∃ q ∈ l, p = (q.1, f q.2) := by
  induction l with
  | nil => simp [updateKV] at hp
  | cons q0 rest ih =>
      obtain ⟨k', v⟩ := q0
      by_cases h : k' = k
      · simp only [updateKV, if_pos h, List.mem_cons] at hp
        rcases hp with h1 | h1
        · exact Or.inr ⟨(k', v), List.mem_cons_self _ _, h1⟩
        · exact Or.inl (List.mem_cons_of_mem _ h1)
      · simp only [updateKV, if_neg h, List.mem_cons] at hp
        rcases hp with h1 | h1
        · exact Or.inl (h1 ▸ List.mem_cons_self _ _)
        · rcases ih h1 with h2 | ⟨q, hq, hpq⟩
          · exact Or.inl (List.mem_cons_of_mem _ h2)
          · exact Or.inr ⟨q, List.mem_cons_of_mem _ hq, hpq⟩

/-- One operation preserves the invariant (threshold at least 1). -/
theorem applyOp_preserves (cfg : RouterConfig)
    (hth : 1 ≤ cfg.unhealthy_threshold) (s : RouterState) (op : EndpointOp)
    (hinv : HealthyInv cfg s) : HealthyInv cfg (applyOp cfg s op) := by
  cases op with
  | register m t =>
      intro p hp hhealthy
      rcases mem_insertKV _ _ _ p hp with h | h
      · subst h
        simpa [Endpoint.new] using hth
      · exact hinv p h hhealthy
  | failure id =>
      intro p hp hhealthy
      simp only [applyOp, record_endpoint_failure] at hp
      rcases mem_updateKV _ _ _ p hp with h | ⟨q, hq, hpq⟩
      · exact hinv p h hhealthy
      · subst hpq
        simp only at hhealthy ⊢
        by_cases hge :
            (q.2.consecutive_failures + 1) % 2 ^ 32 ≥ cfg.unhealthy_threshold
        · rw [if_pos hge] at hhealthy ⊢
          simp [Endpoint.is_healthy, healthStatusUnhealthy,
            healthStatusHealthy] at hhealthy
        · rw [if_neg hge] at hhealthy ⊢
          show (q.2.consecutive_failures + 1) % 2 ^ 32 < cfg.unhealthy_threshold
          omega
  | success id t =>
      intro p hp hhealthy
      simp only [applyOp, record_endpoint_success] at hp
      rcases mem_updateKV _ _ _ p hp with h | ⟨q, hq, hpq⟩
      · exact hinv p h hhealthy
      · subst hpq
        simpa using hth

/-- C5 amended: with a positive `unhealthy_threshold`, after any sequence
of `register_endpoint`, `record_endpoint_failure` and
`record_endpoint_success` operations from a fresh router, every endpoint
whose `health_status` is Healthy has `consecutive_failures` strictly below
the threshold.  (`update_endpoint_metrics` is excluded: the
counterexample shows it can restore Healthy without resetting the
counter.) -/
theorem endpoints_healthy_invariant (cfg : RouterConfig)
    (hth : 1 ≤ cfg.unhealthy_threshold) (ops : List EndpointOp) :
    HealthyInv cfg (applyOps cfg RouterState.new ops) := by
  suffices h : ∀ (s : RouterState), HealthyInv cfg s →
      HealthyInv cfg (applyOps cfg s ops) by
    refine h RouterState.new ?_
    intro p hp
    simp [RouterState.new] at hp
  induction ops with
  | nil => intro s hs; exact hs
  | cons op rest ih =>
      intro s hs
      exact ih (applyOp cfg s op) (applyOp_preserves cfg hth s op hs)

/-- C5 amended witness: a concrete register/failure/success/failure run
under the default configuration. -/
theorem endpoints_healthy_invariant_witness :
    HealthyInv RouterConfig.default
      (applyOps RouterConfig.default RouterState.new
        [.register c5metrics 0, .failure "e", .success "e" 1, .failure "e"]) :=
  endpoints_healthy_invariant RouterConfig.default (by decide)
    [.register c5metrics 0, .failure "e", .success "e" 1, .failure "e"]

/-! ## C1 — tie-breaking among equal-score endpoints -/

/-- A stable sort of an all-equal-key list is the identity: every element
is inserted right at the front of the already-sorted rest. -/
theorem sortScored_of_allEq (l : List (String × ℚ × Endpoint))
    (h : ∀ a ∈ l, ∀ b ∈ l, a.2.1 = b.2.1) : sortScored l = l := by
  induction l with
  | nil => rfl
  | cons x xs ih =>
      have hxs : sortScored xs = xs := by
        refine ih ?_
        intro a ha b hb
        exact h a (List.mem_cons_of_mem _ ha) b (List.mem_cons_of_mem _ hb)
      simp only [sortScored, List.insertionSort] at hxs ⊢
      rw [hxs]
      cases xs with
      | nil => rfl
      | cons y ys =>
          have hxy : x.2.1 ≤ y.2.1 :=
            (h x (List.mem_cons_self _ _) y
              (List.mem_cons_of_mem _ (List.mem_cons_self _ _))).le
          simp [List.orderedInsert, hxy]

/-- When every healthy endpoint scores the same, `route` returns the first
endpoint of the healthy snapshot — i.e. the first in map iteration order —
as target, and the following ones (up to two) as fallbacks, in iteration
order. -/
theorem route_allEq_eval (cfg : RouterConfig) (s : RouterState)
    (m : AiMessage) (e : Endpoint) (rest : List Endpoint)
    (hb : check_budget s m.agent_id m.estimated_cost_tokens = .ok ())
    (hh : get_healthy_endpoints s = e :: rest)
    (heq : ∀ e1 ∈ get_healthy_endpoints s, ∀ e2 ∈ get_healthy_endpoints s,
      score_endpoint cfg e1 = score_endpoint cfg e2) :
    (route cfg s m).map (fun p => p.1.target_endpoint) =
      .ok e.metrics.endpoint_id ∧
    (route cfg s m).map (fun p => p.1.fallback_endpoints) =
      .ok ((rest.take 2).map (fun e2 => e2.metrics.endpoint_id)) := by
  have hmap : ∀ a ∈ (get_healthy_endpoints s).map
      (fun e2 => (e2.metrics.endpoint_id, score_endpoint cfg e2, e2)),
      ∀ b ∈ (get_healthy_endpoints s).map
      (fun e2 => (e2.metrics.endpoint_id, score_endpoint cfg e2, e2)),
      a.2.1 = b.2.1 := by
    intro a ha b hbm
    simp only [List.mem_map] at ha hbm
    obtain ⟨ea, hea, rfl⟩ := ha
    obtain ⟨eb, heb, rfl⟩ := hbm
    exact heq ea hea eb heb
  have hsort := sortScored_of_allEq _ hmap
  rw [hh, List.map_cons] at hsort
  refine ⟨?_, ?_⟩ <;>
    simp [route, hb, hh, hsort, List.map_take, Except.map]
  rfl

/-- Two equal-score healthy endpoints differing only in their ids. -/
def c1metrics (id : String) : EndpointMetrics :=
  { endpoint_id := id, capacity := 100, current_load := 10,
    cost_per_1k_tokens := 1, latency_p99_ms := 5, error_rate := 0,
    last_health_check := 0, health_status := healthStatusHealthy }

/-- Register `"a"` first, then `"b"`; the endpoint map's iteration order
in this state holds `"b"` before `"a"`. -/
def c1state : RouterState :=
  register_endpoint (register_endpoint RouterState.new (c1metrics "a") 0)
    (c1metrics "b") 0

/-- The routed message. -/
def c1msg : AiMessage := sampleMsg "agent" [] 50 i64MAX ""

/-- Scores in `c1state` are pairwise equal (the id is not scored). -/
theorem c1_scores_eq :
    ∀ e1 ∈ get_healthy_endpoints c1state,
    ∀ e2 ∈ get_healthy_endpoints c1state,
      score_endpoint RouterConfig.default e1 =
        score_endpoint RouterConfig.default e2 := by
  intro e1 h1 e2 h2
  have hl : get_healthy_endpoints c1state =
      [Endpoint.new (c1metrics "b") 0, Endpoint.new (c1metrics "a") 0] := rfl
  rw [hl] at h1 h2
  simp only [List.mem_cons, List.not_mem_nil, or_false] at h1 h2
  rcases h1 with rfl | rfl <;> rcases h2 with rfl | rfl <;> rfl

/-- C1 counterexample: in `c1state` both healthy endpoints score equally,
yet `route` targets `"b"` — the first in map iteration order — with
fallback list `["a"]`, even though `"a" < "b"` lexicographically; so the
tie is not broken by ascending `endpoint_id`. -/
theorem route_tie_not_lexicographic :
    score_endpoint RouterConfig.default (Endpoint.new (c1metrics "a") 0) =
      score_endpoint RouterConfig.default (Endpoint.new (c1metrics "b") 0) ∧
    "a" < "b" ∧
    (route RouterConfig.default c1state c1msg).map
      (fun p => p.1.target_endpoint) = .ok "b" ∧
    (route RouterConfig.default c1state c1msg).map
      (fun p => p.1.fallback_endpoints) = .ok ["a"] := by
  have h := route_allEq_eval RouterConfig.default c1state c1msg
    (Endpoint.new (c1metrics "b") 0) [Endpoint.new (c1metrics "a") 0]
    rfl rfl c1_scores_eq
  refine ⟨rfl, ?_, h.1, h.2⟩
  rw [String.lt_iff_toList_lt]
  decide

/-- C1 amended: under equal scores among the healthy endpoints, the target
is the first endpoint of the healthy snapshot in the endpoint map's
iteration order (the sort is stable and compares scores only), and the
fallbacks follow in that same order; no `endpoint_id` tie-break exists. -/
theorem route_tie_breaks_by_iteration_order (cfg : RouterConfig)
    (s : RouterState) (m : AiMessage) (e : Endpoint) (rest : List Endpoint)
    (hb : check_budget s m.agent_id m.estimated_cost_tokens = .ok ())
    (hh : get_healthy_endpoints s = e :: rest)
    (heq : ∀ e1 ∈ get_healthy_endpoints s, ∀ e2 ∈ get_healthy_endpoints s,
      score_endpoint cfg e1 = score_endpoint cfg e2) :
    (route cfg s m).map (fun p => p.1.target_endpoint) =
      .ok e.metrics.endpoint_id ∧
    (route cfg s m).map (fun p => p.1.fallback_endpoints) =
      .ok ((rest.take 2).map (fun e2 => e2.metrics.endpoint_id)) :=
  route_allEq_eval cfg s m e rest hb hh heq

/-- C1 amended witness: the concrete two-endpoint tie resolved by
iteration order. -/
theorem route_tie_breaks_by_iteration_order_witness :
    (route RouterConfig.default c1state c1msg).map
      (fun p => p.1.target_endpoint) = .ok "b" :=
  (route_tie_breaks_by_iteration_order RouterConfig.default c1state c1msg
    (Endpoint.new (c1metrics "b") 0) [Endpoint.new (c1metrics "a") 0]
    rfl rfl c1_scores_eq).1

end AiMesh
